import Mathlib

/-!
Verification development for the pyBiodatafuse metabolite-workflow pipeline
(`combine_sources`, `create_or_append_to_metadata`, `saver.save_graph`,
`BioGraph`), as exercised by `examples/02_metabolite_to_graph.ipynb`.

The notebook under `src/` is pure orchestration; the library functions it
invokes are not part of the visible sources.  Each core operation below is
therefore modelled from the specification (sections 3, 4, 6 and 7 of the
spec), faithful to its words, and the claims are settled against these
models.
-/

namespace PyBiodatafuse

/-- Modelled from the spec: an `IdentifierRecord` of the identifier backbone
(section 3) — `{identifier, identifier_source, target, target_source}`,
one row of the `bridgedb_xref` output table. -/
structure IdentifierRecord where
  identifier : String
  identifier_source : String
  target : String
  target_source : String
deriving DecidableEq

/-- Modelled from the spec: an `AnnotationRecord` (section 3) — a mapping
from field name to scalar or null, represented as an association list with
`none` for null fields. -/
abbrev AnnotationRecord := List (String × Option String)

/-- Modelled from the spec: one row of a per-source annotation table
(section 6): the backbone key columns plus the per-row sequence of
annotation records held in the source's single annotation column. -/
structure SourceRow where
  key : IdentifierRecord
  records : List AnnotationRecord
deriving DecidableEq

/-- Modelled from the spec: a per-source annotation table (section 4.1):
shares the backbone's key columns and contributes exactly one additional
annotation column, named `column_name`. -/
structure SourceTable where
  column_name : String
  rows : List SourceRow
deriving DecidableEq

/-- Modelled from the spec: a `FusedRow` (section 3) — an IdentifierRecord
extended with one column per registered source, each holding that source's
AnnotationRecord sequence for this (identifier, target) pair. -/
structure FusedRow where
  key : IdentifierRecord
  columns : List (String × List AnnotationRecord)
deriving DecidableEq

/-- Modelled from the spec: the fused table produced by the combiner —
its column header followed by its FusedRow rows (section 6: column set =
backbone columns + one column per registered source). -/
structure FusedTable where
  columns : List String
  rows : List FusedRow
deriving DecidableEq

/-- Modelled from the spec: the `KeyMismatch` warning (section 7) — a
source row references an identity tuple absent from the backbone and is
recovered as a warning plus a dropped row. -/
structure KeyMismatchWarning where
  source_name : String
  key : IdentifierRecord
deriving DecidableEq

/-- Modelled from the spec: the fatal combiner error (sections 4.1 and 7):
`DuplicateSourceColumn` carries the colliding annotation column name. -/
inductive CombineError where
  | DuplicateSourceColumn : String → CombineError
deriving DecidableEq

/-- The four backbone identity columns, in the order shown by the
notebook's `bridgdb_df` output. -/
def identityColumns : List String :=
  ["identifier", "identifier.source", "target", "target.source"]

/-- Modelled from the spec: the annotation-record sequence a source table
holds for one backbone key tuple; a source having no record for the key
yields an empty sequence, not a null scalar (null normalization,
section 4.1). -/
def lookupSource (t : SourceTable) (k : IdentifierRecord) : List AnnotationRecord :=
  match t.rows.find? (fun r => decide (r.key = k)) with
  | some r => r.records
  | none => []

/-- The key tuples of a source table's rows that do not appear in the
backbone (missing-match policy, section 4.1). -/
def unmatchedKeys (backbone : List IdentifierRecord) (t : SourceTable) :
    List IdentifierRecord :=
  (t.rows.map (·.key)).filter (fun k => decide (k ∉ backbone))

/-- Modelled from the spec: one `KeyMismatch` warning per unmatched key of
one source table (section 4.1). -/
def sourceWarnings (backbone : List IdentifierRecord) (t : SourceTable) :
    List KeyMismatchWarning :=
  (unmatchedKeys backbone t).map (fun k => ⟨t.column_name, k⟩)

/-- Modelled from the spec: detection of the column collision (section
4.1) — the first annotation column name declared by two source tables,
if any. -/
def findDuplicateColumn : List SourceTable → Option String
  | [] => none
  | t :: rest =>
    if rest.any (fun u => decide (u.column_name = t.column_name)) then
      some t.column_name
    else
      findDuplicateColumn rest

/-- Modelled from the spec: the fused row for one backbone key — the key
extended with one (column name, annotation sequence) entry per source, in
the order the source tables were given (left outer join keyed on the full
identity tuple, backbone as anchor; section 4.1). -/
def fuseRow (df_list : List SourceTable) (k : IdentifierRecord) : FusedRow :=
  ⟨k, df_list.map (fun t => (t.column_name, lookupSource t k))⟩

/-- The rows of the fused table: one per backbone row, in backbone order
(determinism, section 4.1). -/
def fusedRows (backbone : List IdentifierRecord) (df_list : List SourceTable) :
    List FusedRow :=
  backbone.map (fuseRow df_list)

/-- All `KeyMismatch` warnings of one combine call, one per unmatched
source-row key. -/
def combineWarnings (backbone : List IdentifierRecord) (df_list : List SourceTable) :
    List KeyMismatchWarning :=
  df_list.flatMap (sourceWarnings backbone)

/-- Modelled from the spec: `combine_sources` (section 4.1), the library
function imported by the notebook from `pyBiodatafuse.utils` and invoked
as `combine_sources(bridgdb_df, df_list=[...])`.  Fails with
`DuplicateSourceColumn` when two source tables declare the same annotation
column; otherwise performs the left outer join of the backbone with every
source table and reports the `KeyMismatch` warnings. -/
def combine_sources (backbone : List IdentifierRecord) (df_list : List SourceTable) :
    Except CombineError (FusedTable × List KeyMismatchWarning) :=
  match findDuplicateColumn df_list with
  | some name => .error (.DuplicateSourceColumn name)
  | none =>
    .ok (⟨identityColumns ++ df_list.map (·.column_name),
          fusedRows backbone df_list⟩,
         combineWarnings backbone df_list)

/-- Modelled from the spec: a `MetadataEntry` (section 3) — source name,
source version, query date, query duration and warnings.  The duration is
kept opaque as text since no claim computes with it. -/
structure MetadataEntry where
  source_name : String
  source_version : String
  query_date : String
  query_duration_seconds : String
  warnings : List String
deriving DecidableEq

/-- Modelled from the spec: the provenance Ledger (section 3) — a mapping
from source name to the sequence of MetadataEntry values recorded under
that source, append-only. -/
abbrev Ledger := List (String × List MetadataEntry)

/-- Modelled from the spec: appending one entry to the ledger (section
4.2) — extends the sequence under the matching source_name key; if the key
is new, a new sequence is created at the end.  Never deletes, merges or
overwrites. -/
def appendEntry (l : Ledger) (e : MetadataEntry) : Ledger :=
  match l with
  | [] => [(e.source_name, [e])]
  | (k, es) :: rest =>
    if k = e.source_name then (k, es ++ [e]) :: rest
    else (k, es) :: appendEntry rest e

/-- Modelled from the spec: `create_or_append_to_metadata` (section 4.2),
the library function imported by the notebook from `pyBiodatafuse.utils`:
pure append of each new entry to the passed-in ledger accumulator. -/
def create_or_append_to_metadata (l : Ledger) (new_entries : List MetadataEntry) :
    Ledger :=
  new_entries.foldl appendEntry l

/-- The ledger holding exactly one source's single entry; how a lone
MetadataEntry (the backbone mapper's) seeds the accumulator. -/
def initialLedger (e : MetadataEntry) : Ledger :=
  [(e.source_name, [e])]

/-- The entry sequence recorded under one source name (empty when the
source has no entry). -/
def entriesFor (l : Ledger) (name : String) : List MetadataEntry :=
  match l.find? (fun p => decide (p.1 = name)) with
  | some p => p.2
  | none => []

/-- Modelled from the spec: a `GraphNode` identity (section 3) — a
(value, value_source) pair, deduplicated across all rows. -/
structure GraphNode where
  value : String
  value_source : String
deriving DecidableEq

/-- Modelled from the spec: a `GraphEdge` (section 3) — directed, labeled
by source name and an optional relation type, carrying the annotation
record's remaining fields as attributes. -/
structure GraphEdge where
  src : GraphNode
  dst : GraphNode
  source_label : String
  relation : Option String
  attrs : AnnotationRecord
deriving DecidableEq

/-- Modelled from the spec: the compiled multi-relational graph (section
4.3), owned by the Graph Compiler, read-only for analytics. -/
structure Graph where
  nodes : List GraphNode
  edges : List GraphEdge
deriving DecidableEq

/-- The identifier node of a backbone key: (identifier, identifier source). -/
def nodeOfIdentifier (k : IdentifierRecord) : GraphNode :=
  ⟨k.identifier, k.identifier_source⟩

/-- The target node of a backbone key: (target, target source). -/
def nodeOfTarget (k : IdentifierRecord) : GraphNode :=
  ⟨k.target, k.target_source⟩

/-- An annotation record that is entirely null across all fields — the
"queried, no data" placeholder of section 4.3 step 3. -/
def isAllNull (rec : AnnotationRecord) : Bool :=
  rec.all (fun p => p.2.isNone)

/-- The first non-null field of an annotation record, if any. -/
def firstNonNullField : AnnotationRecord → Option (String × String)
  | [] => none
  | (f, some v) :: _ => some (f, v)
  | (_, none) :: rest => firstNonNullField rest

/-- Modelled from the spec: the entity a record references (section 4.3
step 2, "the record's referenced entity is the destination") — its node
value is the record's first non-null field value, its value source the
contributing source column. -/
def entityNode (source_name : String) (rec : AnnotationRecord) : GraphNode :=
  match firstNonNullField rec with
  | some (_, v) => ⟨v, source_name⟩
  | none => ⟨"", source_name⟩

/-- The record's `relation_type` field, when present (section 4.3 step 2). -/
def relationOf (rec : AnnotationRecord) : Option String :=
  match rec.find? (fun p => decide (p.1 = "relation_type")) with
  | some p => p.2
  | none => none

/-- Modelled from the spec: the edges contributed by one fused row
(section 4.3 steps 2-4): one edge per non-all-null annotation record of
each source column, from the row's anchor (target) node to the record's
referenced entity, labeled with the column's source name; all-null
placeholder records contribute no edge; textually identical records still
produce distinct edge instances (no deduplication). -/
def edgesOfRow (r : FusedRow) : List GraphEdge :=
  r.columns.flatMap (fun c =>
    (c.2.filter (fun rec => !isAllNull rec)).map (fun rec =>
      ⟨nodeOfTarget r.key, entityNode c.1 rec, c.1, relationOf rec, rec⟩))

/-- The nodes a fused row mentions: its identifier node, its target node,
and the destination entity of each of its edges. -/
def nodesOfRow (r : FusedRow) : List GraphNode :=
  nodeOfIdentifier r.key :: nodeOfTarget r.key :: (edgesOfRow r).map (·.dst)

/-- Modelled from the spec: node registration (section 4.3 step 1) —
a node is created at most once per identity key; registering an already
present node is a no-op. -/
def registerNode (ns : List GraphNode) (n : GraphNode) : List GraphNode :=
  if n ∈ ns then ns else ns ++ [n]

/-- Register a batch of nodes in order, deduplicating against everything
registered so far. -/
def registerAll (ns : List GraphNode) (ms : List GraphNode) : List GraphNode :=
  ms.foldl registerNode ns

/-- All nodes of the fused table, registered row by row with
deduplication by identity key across the whole table. -/
def collectNodes (rows : List FusedRow) : List GraphNode :=
  rows.foldl (fun ns r => registerAll ns (nodesOfRow r)) []

/-- Modelled from the spec: `compile` (section 4.3) — the Graph Compiler
converting the fused table into the directed multi-relational graph, built
once per run. -/
def compile (ft : FusedTable) : Graph :=
  ⟨collectNodes ft.rows, ft.rows.flatMap edgesOfRow⟩

/-- Modelled from the spec: the flat edge-list text export (section 6c) —
one "source destination" line per edge of the compiled graph. -/
def exportEdgeList (g : Graph) : List String :=
  g.edges.map (fun e => e.src.value ++ " " ++ e.dst.value)

/-- Re-parsing the edge-list text: each line is one edge, so the parsed
edge count is the number of lines. -/
def parseEdgeListCount (lines : List String) : Nat :=
  lines.length

/-- One edge of the generic graph-markup export. -/
structure GMLEdge where
  source_value : String
  target_value : String
  label : String
deriving DecidableEq

/-- Modelled from the spec: the generic markup graph document (section
6b) — nodes and edges with attribute lists, for interchange with external
graph tools. -/
structure GMLDoc where
  nodes : List GraphNode
  edges : List GMLEdge
deriving DecidableEq

/-- Modelled from the spec: the generic graph-markup export, fed from the
compiled graph (section 4.4: every exporter consumes the compiler output,
never re-derived per format). -/
def exportGML (g : Graph) : GMLDoc :=
  ⟨g.nodes, g.edges.map (fun e => ⟨e.src.value, e.dst.value, e.source_label⟩)⟩

/-- Modelled from the spec: the artifacts of one run (sections 4.4 and
6): serialized table, serialized ledger, native serialized graph, generic
markup export and edge-list export, under `<graph_name>_...` names in the
caller-specified directory. -/
structure Artifacts where
  df_pkl : String × FusedTable
  metadata_pkl : String × Ledger
  graph_pkl : String × Graph
  graph_gml : String × GMLDoc
  graph_edgelist : String × List String
deriving DecidableEq

/-- Modelled from the spec: `saver.save_graph` (section 4.4), invoked by
the notebook as `pygraph = saver.save_graph(combined_df=..., ...)` —
compiles the fused table once, persists every artifact from that single
compiled graph, and returns the compiled in-memory graph object. -/
def save_graph (combined_df : FusedTable) (combined_metadata : Ledger)
    (graph_name : String) (graph_dir : String) : Graph × Artifacts :=
  let g := compile combined_df
  let base := graph_dir ++ "/" ++ graph_name
  (g, ⟨(base ++ "_df.pkl", combined_df),
       (base ++ "_metadata.pkl", combined_metadata),
       (base ++ "_graph.pkl", g),
       (base ++ "_graph.gml", exportGML g),
       (base ++ "_graph.edgelist", exportEdgeList g)⟩)

/-- Modelled from the spec: the analytics layer's `BioGraph` wrapper,
constructed by the notebook as `BioGraph(graph=pygraph)` directly from the
graph object `save_graph` returned. -/
structure BioGraph where
  graph : Graph
deriving DecidableEq

/-- Modelled from the spec: `graph_summary` (section 4.4 analytics) —
total node and edge counts, read-only over the compiled graph. -/
def graph_summary (b : BioGraph) : Nat × Nat :=
  (b.graph.nodes.length, b.graph.edges.length)

/-- Modelled from the spec: node counts partitioned by the node's value
source (read-only analytics). -/
def count_nodes_by_data_source (b : BioGraph) (source : String) : Nat :=
  (b.graph.nodes.filter (fun n => decide (n.value_source = source))).length

/-- Modelled from the spec: edge counts partitioned by contributing
source label (read-only analytics). -/
def count_edge_by_data_source (b : BioGraph) (source : String) : Nat :=
  (b.graph.edges.filter (fun e => decide (e.source_label = source))).length

/-! ### Concrete data drawn from the notebook run -/

/-- A backbone row of the notebook's `bridgdb_df`: compound 100208 mapped
to itself in the PubChem Compound vocabulary. -/
def kPubchemA : IdentifierRecord :=
  ⟨"100208", "PubChem-compound", "100208", "PubChem Compound"⟩

/-- A backbone row of the notebook's `bridgdb_df`: compound 5291 mapped to
itself in the PubChem Compound vocabulary. -/
def kPubchemB : IdentifierRecord :=
  ⟨"5291", "PubChem-compound", "5291", "PubChem Compound"⟩

/-- An identity tuple absent from the example backbone. -/
def kUnmatched : IdentifierRecord :=
  ⟨"9999", "PubChem-compound", "KTUFNOKKBVMGRW-UHFFFAOYSA-N", "InChIKey"⟩

/-- A small backbone, shaped like the notebook's `bridgdb_df`. -/
def exBackbone : List IdentifierRecord := [kPubchemA, kPubchemB]

/-- An all-null OpenTargets annotation record, as in the notebook output
(`{'disease_name': nan, 'therapeutic_areas': nan, ...}`). -/
def recNullDisease : AnnotationRecord :=
  [("disease_name", none), ("therapeutic_areas", none)]

/-- A non-null OpenTargets annotation record, as in the notebook output
for compound 5291. -/
def recDisease : AnnotationRecord :=
  [("disease_name", some "colonic neoplasm"), ("therapeutic_areas", some "oncology")]

/-- A non-null MolMeDB annotation record, as in the notebook output for
compound 100208. -/
def recInhibitor : AnnotationRecord :=
  [("uniprot_trembl_id", some "P08183"), ("hgnc_symbol", some "ABCB1")]

/-- A source table shaped like the notebook's `opentargets_df`, column
`OpenTargets_diseases`. -/
def exOpenTargets : SourceTable :=
  ⟨"OpenTargets_diseases", [⟨kPubchemA, [recNullDisease]⟩, ⟨kPubchemB, [recDisease]⟩]⟩

/-- A source table shaped like the notebook's
`molmedb_transporter_inhibited_df`, with one row whose key tuple is absent
from the example backbone. -/
def exMolMeDB : SourceTable :=
  ⟨"MolMeDB_transporter_inhibited",
   [⟨kPubchemA, [recInhibitor]⟩, ⟨kUnmatched, [recInhibitor]⟩]⟩

/-- The notebook's `df_list` argument: the two annotator tables. -/
def exSources : List SourceTable := [exOpenTargets, exMolMeDB]

/-- A source table that shares no key with the example backbone. -/
def exNoMatchSource : SourceTable := ⟨"aopwiki", [⟨kUnmatched, [recInhibitor]⟩]⟩

/-- The annotator tables extended with the zero-match source. -/
def exSources3 : List SourceTable := [exOpenTargets, exMolMeDB, exNoMatchSource]

/-- Two source tables declaring the same annotation column name. -/
def exDupSources : List SourceTable :=
  [exOpenTargets, ⟨"OpenTargets_diseases", []⟩]

/-- The fused table of the example combine call. -/
def exFusedTable : FusedTable :=
  ⟨identityColumns ++ exSources.map (·.column_name), fusedRows exBackbone exSources⟩

/-- The warnings of the example combine call. -/
def exWarnings : List KeyMismatchWarning := combineWarnings exBackbone exSources

/-- Modelled from the spec: the MetadataEntry returned by
`id_mapper.bridgedb_xref` alongside `bridgdb_df` in the notebook. -/
def bridgedb_metadata_entry : MetadataEntry :=
  ⟨"BridgeDb", "webservice 2.3.0", "2024-05-01", "0.8", []⟩

/-- Modelled from the spec: the MetadataEntry returned by
`opentargets.get_compound_disease_interactions` in the notebook. -/
def opentargets_metadata_entry : MetadataEntry :=
  ⟨"OpenTargets_diseases", "24.03", "2024-05-01", "2.1",
   ["The intermediate_df in OpenTargets_diseases annotatur should be checked"]⟩

/-- Modelled from the spec: the MetadataEntry returned by
`molmedb.get_compound_gene_inhibitor` in the notebook. -/
def molmedb_metadata_entry : MetadataEntry :=
  ⟨"MolMeDB_transporter_inhibited", "2024", "2024-05-01", "1.4", []⟩

/-- The notebook's `combined_metadata`: the mapper's own metadata seeds
the accumulator and both annotator entries are appended —
`create_or_append_to_metadata(bridgdb_metadata, [opentargets_metadata,
molmedb_transporter_inhibited_metadata])`. -/
def combined_metadata : Ledger :=
  create_or_append_to_metadata (initialLedger bridgedb_metadata_entry)
    [opentargets_metadata_entry, molmedb_metadata_entry]

/-! ### Helper lemmas -/

/-- `findDuplicateColumn` succeeds exactly when the declared annotation
column names collide. -/
theorem findDuplicateColumn_eq_none_iff (S : List SourceTable) :
    findDuplicateColumn S = none ↔ (S.map (·.column_name)).Nodup := by
  induction S with
  | nil => simp [findDuplicateColumn]
  | cons t rest ih =>
    by_cases hc : rest.any (fun u => decide (u.column_name = t.column_name)) = true
    · simp only [findDuplicateColumn, hc, if_true, List.map_cons, List.nodup_cons]
      constructor
      · intro h; cases h
      · intro h
        rcases List.any_eq_true.mp hc with ⟨u, hu, hequ⟩
        exact absurd (List.mem_map.mpr ⟨u, hu, of_decide_eq_true hequ⟩) h.1
    · have hnotmem : t.column_name ∉ rest.map (·.column_name) := by
        intro hmem
        rcases List.mem_map.mp hmem with ⟨u, hu, hequ⟩
        exact hc (List.any_eq_true.mpr ⟨u, hu, decide_eq_true hequ⟩)
      simp only [findDuplicateColumn, if_neg hc, List.map_cons, List.nodup_cons]
      rw [ih]
      simp [hnotmem]

/-- A source table with no row matching a key yields the empty annotation
sequence for that key. -/
theorem lookupSource_eq_nil_of_no_match (t : SourceTable) (k : IdentifierRecord)
    (hno : ∀ r ∈ t.rows, r.key ≠ k) : lookupSource t k = [] := by
  have hfind : t.rows.find? (fun r => decide (r.key = k)) = none :=
    List.find?_eq_none.mpr (fun r hr => by simpa using hno r hr)
  simp [lookupSource, hfind]

/-- Registering a node preserves node deduplication. -/
theorem registerNode_nodup {ns : List GraphNode} (n : GraphNode)
    (h : ns.Nodup) : (registerNode ns n).Nodup := by
  by_cases hm : n ∈ ns
  · simpa [registerNode, hm] using h
  · simp [registerNode, hm, List.nodup_append, h]

/-- Registering a batch of nodes preserves node deduplication. -/
theorem registerAll_nodup (ms : List GraphNode) :
    ∀ ns : List GraphNode, ns.Nodup → (registerAll ns ms).Nodup := by
  induction ms with
  | nil => intro ns h; simpa [registerAll] using h
  | cons m ms ih =>
    intro ns h
    have : registerAll ns (m :: ms) = registerAll (registerNode ns m) ms := rfl
    rw [this]
    exact ih _ (registerNode_nodup m h)

/-- The node list accumulated over any rows is deduplicated. -/
theorem collectNodes_nodup (rows : List FusedRow) : (collectNodes rows).Nodup := by
  have key : ∀ rs : List FusedRow, ∀ ns : List GraphNode, ns.Nodup →
      (rs.foldl (fun ns r => registerAll ns (nodesOfRow r)) ns).Nodup := by
    intro rs
    induction rs with
    | nil => intro ns h; simpa using h
    | cons r rs ih =>
      intro ns h
      exact ih _ (registerAll_nodup (nodesOfRow r) ns h)
  exact key rows [] List.nodup_nil

/-- Appending an entry extends the sequence under its own source name by
exactly that entry. -/
theorem entriesFor_appendEntry_same (l : Ledger) (e : MetadataEntry) :
    entriesFor (appendEntry l e) e.source_name = entriesFor l e.source_name ++ [e] := by
  induction l with
  | nil => simp [appendEntry, entriesFor, List.find?]
  | cons p rest ih =>
    obtain ⟨k, es⟩ := p
    by_cases hk : k = e.source_name
    · subst hk
      simp [appendEntry, entriesFor, List.find?]
    · simp only [appendEntry, if_neg hk]
      have hkd : (decide (k = e.source_name)) = false := by simpa using hk
      simp only [entriesFor, List.find?, hkd]
      exact ih

/-! ### Claim theorems -/

/-- C1: for every backbone table `B` and sequence of per-source annotation
tables `S`, a successful `combine_sources B S` returns a fused table with
exactly `|B|` rows, whose row order follows `B`'s row order; the row count
never grows or shrinks due to a source's fan-out. -/
theorem combine_sources_row_count_invariant (B : List IdentifierRecord)
    (S : List SourceTable) (ft : FusedTable) (ws : List KeyMismatchWarning)
    (h : combine_sources B S = .ok (ft, ws)) :
    ft.rows.length = B.length ∧ ft.rows.map (·.key) = B := by
  unfold combine_sources at h
  cases hd : findDuplicateColumn S with
  | some name => rw [hd] at h; exact absurd h (by simp)
  | none =>
    rw [hd] at h
    simp only [Except.ok.injEq, Prod.mk.injEq] at h
    obtain ⟨hft, _⟩ := h
    subst hft
    constructor
    · simp [fusedRows]
    · simp [fusedRows, fuseRow, List.map_map, Function.comp_def]

/-- C1 witness: the example combine call keeps exactly the backbone's two
rows in backbone order. -/
theorem combine_sources_row_count_invariant_witness :
    exFusedTable.rows.length = exBackbone.length
    ∧ exFusedTable.rows.map (·.key) = exBackbone :=
  combine_sources_row_count_invariant exBackbone exSources exFusedTable exWarnings rfl

/-- C2: whenever two source tables declare the same annotation column
name, `combine_sources` fails with a `DuplicateSourceColumn` error — the
pure combiner returns the error instead of a fused table, so no column is
silently overwritten and no output is produced (hence no I/O). -/
theorem combine_sources_duplicate_column_error (B : List IdentifierRecord)
    (S : List SourceTable) (i j : Fin S.length) (hij : i ≠ j)
    (hcol : (S.get i).column_name = (S.get j).column_name) :
    ∃ name, combine_sources B S = .error (.DuplicateSourceColumn name) := by
  have hnd : ¬ (S.map (·.column_name)).Nodup := by
    intro hnd
    have hi : (i : Nat) < (S.map (·.column_name)).length := by simp [i.isLt]
    have hj : (j : Nat) < (S.map (·.column_name)).length := by simp [j.isLt]
    have hgl : (S.map (·.column_name))[(i : Nat)] = (S.map (·.column_name))[(j : Nat)] := by
      simpa [List.getElem_map] using hcol
    exact hij (Fin.ext ((List.Nodup.getElem_inj_iff hnd).mp hgl))
  have hd : findDuplicateColumn S ≠ none := fun hn =>
    hnd ((findDuplicateColumn_eq_none_iff S).mp hn)
  cases hfd : findDuplicateColumn S with
  | none => exact absurd hfd hd
  | some name =>
    refine ⟨name, ?_⟩
    unfold combine_sources
    rw [hfd]

/-- C2 witness: two source tables both named `OpenTargets_diseases` make
the example combine call fail with `DuplicateSourceColumn`. -/
theorem combine_sources_duplicate_column_error_witness :
    ∃ name, combine_sources exBackbone exDupSources
      = .error (.DuplicateSourceColumn name) :=
  combine_sources_duplicate_column_error exBackbone exDupSources
    ⟨0, by decide⟩ ⟨1, by decide⟩ (by decide) (by decide)

/-- C3: in the compiled graph every node is created at most once per
identity key (the node list is duplicate-free no matter how many rows
reference an identity), and for any row key whose target differs from its
identifier, the identifier node and the target node are distinct. -/
theorem compile_node_dedup (ft : FusedTable) (k : IdentifierRecord)
    (h : k.target ≠ k.identifier) :
    (compile ft).nodes.Nodup ∧ nodeOfIdentifier k ≠ nodeOfTarget k := by
  refine ⟨collectNodes_nodup ft.rows, fun heq => ?_⟩
  exact h (congrArg GraphNode.value heq).symm

/-- C3 witness: the example fused table compiles to a duplicate-free node
list, and the unmatched key's identifier and target nodes are distinct. -/
theorem compile_node_dedup_witness :
    (compile exFusedTable).nodes.Nodup
    ∧ nodeOfIdentifier kUnmatched ≠ nodeOfTarget kUnmatched :=
  compile_node_dedup exFusedTable kUnmatched (by decide)

/-- C4: for every compiled graph, the edge-list export and the generic
graph-markup export of one `save_graph` run hold identical total edge
counts, re-parsing the edge-list yields the in-memory graph's edge count,
and every persisted artifact is the one compiled graph's — every exporter
consumes the same compiler output. -/
theorem save_graph_export_consistency (df : FusedTable) (md : Ledger)
    (gname gdir : String) :
    ((save_graph df md gname gdir).2.graph_edgelist.2).length
      = ((save_graph df md gname gdir).2.graph_gml.2).edges.length
    ∧ parseEdgeListCount ((save_graph df md gname gdir).2.graph_edgelist.2)
      = (save_graph df md gname gdir).1.edges.length
    ∧ (save_graph df md gname gdir).2.graph_pkl.2 = compile df
    ∧ (save_graph df md gname gdir).2.graph_gml.2 = exportGML (compile df)
    ∧ (save_graph df md gname gdir).2.graph_edgelist.2 = exportEdgeList (compile df) := by
  refine ⟨?_, ?_, rfl, rfl, rfl⟩
  · simp [save_graph, exportGML, exportEdgeList]
  · simp [save_graph, parseEdgeListCount, exportEdgeList]

/-- C5: appending the same MetadataEntry twice to any ledger yields two
entries under its source name, not one — `create_or_append_to_metadata`
never de-duplicates, merges, or overwrites existing entries. -/
theorem metadata_append_no_dedup (L : Ledger) (e : MetadataEntry) :
    entriesFor
      (create_or_append_to_metadata (create_or_append_to_metadata L [e]) [e])
      e.source_name
    = entriesFor L e.source_name ++ [e, e] := by
  simp [create_or_append_to_metadata, entriesFor_appendEntry_same]

/-- C6: with no column collision, a source-table row whose key tuple is
absent from the backbone is dropped (the fused rows remain exactly the
backbone's), one `KeyMismatch` warning is emitted per unmatched key, and
`combine_sources` still succeeds rather than raising an error. -/
theorem combine_sources_unmatched_key_warning (B : List IdentifierRecord)
    (S : List SourceTable) (t : SourceTable) (k : IdentifierRecord)
    (hdup : findDuplicateColumn S = none) (ht : t ∈ S)
    (hk : k ∈ unmatchedKeys B t) :
    combine_sources B S
      = .ok (⟨identityColumns ++ S.map (·.column_name), fusedRows B S⟩,
             combineWarnings B S)
    ∧ KeyMismatchWarning.mk t.column_name k ∈ combineWarnings B S
    ∧ (combineWarnings B S).length
      = (S.map (fun u => (unmatchedKeys B u).length)).sum
    ∧ (fusedRows B S).map (·.key) = B := by
  refine ⟨?_, ?_, ?_, ?_⟩
  · unfold combine_sources; rw [hdup]
  · exact List.mem_flatMap.mpr ⟨t, ht, List.mem_map.mpr ⟨k, hk, rfl⟩⟩
  · simp [combineWarnings, sourceWarnings, List.length_flatMap, Function.comp_def]
  · simp [fusedRows, fuseRow, List.map_map, Function.comp_def]

/-- C6 witness: the example MolMeDB table's unmatched key produces its
warning while the example combine call succeeds with the backbone's rows. -/
theorem combine_sources_unmatched_key_warning_witness :
    combine_sources exBackbone exSources
      = .ok (⟨identityColumns ++ exSources.map (·.column_name),
              fusedRows exBackbone exSources⟩,
             combineWarnings exBackbone exSources)
    ∧ KeyMismatchWarning.mk exMolMeDB.column_name kUnmatched
        ∈ combineWarnings exBackbone exSources
    ∧ (combineWarnings exBackbone exSources).length
      = (exSources.map (fun u => (unmatchedKeys exBackbone u).length)).sum
    ∧ (fusedRows exBackbone exSources).map (·.key) = exBackbone :=
  combine_sources_unmatched_key_warning exBackbone exSources exMolMeDB kUnmatched
    (by decide) (by decide) (by decide)

/-- C7: when a source contributed no record for a row's key tuple, that
source's fused column holds the empty sequence (its type is a sequence,
never a null scalar); in particular a source table with zero matching keys
against the backbone yields an empty sequence on every backbone row. -/
theorem fused_column_empty_sequence (B : List IdentifierRecord)
    (S : List SourceTable) (t : SourceTable) (k : IdentifierRecord)
    (ht : t ∈ S) (hno : ∀ r ∈ t.rows, r.key ≠ k) :
    lookupSource t k = []
    ∧ (t.column_name, ([] : List AnnotationRecord)) ∈ (fuseRow S k).columns
    ∧ ((∀ r ∈ t.rows, r.key ∉ B) → ∀ k2 ∈ B, lookupSource t k2 = []) := by
  have h1 : lookupSource t k = [] := lookupSource_eq_nil_of_no_match t k hno
  refine ⟨h1, ?_, ?_⟩
  · exact List.mem_map.mpr ⟨t, ht, by rw [h1]⟩
  · intro hzero k2 hk2
    exact lookupSource_eq_nil_of_no_match t k2
      (fun r hr heq => hzero r hr (heq ▸ hk2))

/-- C7 witness: the zero-match `aopwiki` table yields the empty sequence
for backbone row `kPubchemA` in the three-source example. -/
theorem fused_column_empty_sequence_witness :
    lookupSource exNoMatchSource kPubchemA = []
    ∧ (exNoMatchSource.column_name, ([] : List AnnotationRecord))
        ∈ (fuseRow exSources3 kPubchemA).columns
    ∧ ((∀ r ∈ exNoMatchSource.rows, r.key ∉ exBackbone)
        → ∀ k2 ∈ exBackbone, lookupSource exNoMatchSource k2 = []) :=
  fused_column_empty_sequence exBackbone exSources3 exNoMatchSource kPubchemA
    (by decide) (by decide)

/-- C8: `save_graph` returns the compiled in-memory graph object besides
persisting the artifacts, and the analytics layer (`BioGraph`,
`graph_summary`) built from that returned object reads exactly the
compiled graph, with no serialized artifact involved. -/
theorem save_graph_returns_compiled_graph (df : FusedTable) (md : Ledger)
    (gname gdir : String) :
    (save_graph df md gname gdir).1 = compile df
    ∧ (BioGraph.mk (save_graph df md gname gdir).1).graph = compile df
    ∧ graph_summary (BioGraph.mk (save_graph df md gname gdir).1)
      = ((compile df).nodes.length, (compile df).edges.length) := by
  exact ⟨rfl, rfl, rfl⟩

/-- C9: every successful `combine_sources` output lists the four backbone
identity columns first, followed by exactly one annotation column per
supplied source, in `df_list` order — both in the table header and in
every fused row's column entries. -/
theorem combine_sources_column_order (B : List IdentifierRecord)
    (S : List SourceTable) (ft : FusedTable) (ws : List KeyMismatchWarning)
    (h : combine_sources B S = .ok (ft, ws)) :
    ft.columns
      = ["identifier", "identifier.source", "target", "target.source"]
        ++ S.map (·.column_name)
    ∧ ∀ r ∈ ft.rows, r.columns.map Prod.fst = S.map (·.column_name) := by
  unfold combine_sources at h
  cases hd : findDuplicateColumn S with
  | some name => rw [hd] at h; exact absurd h (by simp)
  | none =>
    rw [hd] at h
    simp only [Except.ok.injEq, Prod.mk.injEq] at h
    obtain ⟨hft, _⟩ := h
    subst hft
    refine ⟨rfl, ?_⟩
    intro r hr
    rcases List.mem_map.mp hr with ⟨k, _, hrk⟩
    subst hrk
    simp [fuseRow, List.map_map, Function.comp_def]

/-- C9 witness: the example fused table's header is the four identity
columns followed by `OpenTargets_diseases` then
`MolMeDB_transporter_inhibited`, matching `df_list` order. -/
theorem combine_sources_column_order_witness :
    exFusedTable.columns
      = ["identifier", "identifier.source", "target", "target.source"]
        ++ exSources.map (·.column_name)
    ∧ ∀ r ∈ exFusedTable.rows,
        r.columns.map Prod.fst = exSources.map (·.column_name) :=
  combine_sources_column_order exBackbone exSources exFusedTable exWarnings rfl

/-- C10: the notebook's ledger is seeded with the identifier-resolution
step's own MetadataEntry as the initial accumulator, so after the run it
holds provenance for the BridgeDb mapping step in addition to exactly one
entry per annotator queried. -/
theorem combined_metadata_contains_mapper_provenance :
    entriesFor combined_metadata "BridgeDb" = [bridgedb_metadata_entry]
    ∧ entriesFor combined_metadata "OpenTargets_diseases"
      = [opentargets_metadata_entry]
    ∧ entriesFor combined_metadata "MolMeDB_transporter_inhibited"
      = [molmedb_metadata_entry]
    ∧ combined_metadata.length = 3 := by
  exact ⟨rfl, rfl, rfl, rfl⟩

end PyBiodatafuse
